import Mathlib

/-!
Shallow embedding of the finance data layer of the Finpallal application
(file src/contexts/FinanceContext.tsx), together with theorems about the
budget consistency logic specified for it.

Modelling conventions.

Numbers: transaction amounts and budget fields are modelled as Int; the
source stores JavaScript numbers and only adds and sums them in the code
under verification.

State: the three useState collections (transactions, budgets, categories)
become the record FinState, and every mutation entry point becomes a pure
function from FinState to FinState (or to AddTxResult, which also records
whether the failure path that triggers a full data refresh was taken).

Authentication and the remote store: each entry point takes a Bool for
the guard (isAuthenticated and user both present) and Bools for the
outcome of each remote call it performs, since the source awaits the
remote result and branches on success or thrown error. A thrown remote
error is caught inside the entry point (a toast is shown), so failures
only determine which local updates run.

React semantics, load bearing for the update and delete paths: the state
variables read inside an event handler are the bindings of the render
that created the handler. A setState call enqueues a new value but does
not change those bindings, and a functional update (setX (prev => ...))
is applied to the latest enqueued value. Consequently, when
updateTransaction or deleteTransaction first calls
setTransactions (prev => ...) and then calls recalculateBudgets, the
helper recalculateBudgets (and calculateSpentAmount inside it) still
reads the transaction list from before the mutation. The embedding
reproduces this: the recomputation below is applied to the old list.
-/

inductive TxType where
  | income
  | expense
deriving DecidableEq, Repr

inductive CatType where
  | income
  | expense
  | both
deriving DecidableEq, Repr

inductive Period where
  | weekly
  | monthly
  | yearly
deriving DecidableEq, Repr

/-- Transaction record, from src/types/index.ts. -/
structure Transaction where
  id : String
  amount : Int
  category : String
  date : String
  description : String
  type : TxType
deriving DecidableEq, Repr

/-- Budget record, from src/types/index.ts. -/
structure Budget where
  id : String
  category : String
  limit : Int
  spent : Int
  period : Period
deriving DecidableEq, Repr

/-- Category record, from src/types/index.ts. -/
structure Category where
  id : String
  name : String
  type : CatType
  color : String
deriving DecidableEq, Repr

/-- The three in-memory collections held by the FinanceProvider. -/
structure FinState where
  transactions : List Transaction
  budgets : List Budget
  categories : List Category
deriving DecidableEq, Repr

/-- Input for addTransaction: a Transaction without the id field, which
the remote insert generates (modelled as the newId argument below). -/
structure TxInput where
  amount : Int
  category : String
  date : String
  description : String
  type : TxType
deriving DecidableEq, Repr

/-- The local Transaction built from the row echoed by the remote insert. -/
def mkTransaction (newId : String) (i : TxInput) : Transaction :=
  { id := newId, amount := i.amount, category := i.category,
    date := i.date, description := i.description, type := i.type }

/-- Partial Transaction for updateTransaction; a some field overrides the
stored field, mirroring the object spread in the source. -/
structure TxPatch where
  amount : Option Int
  category : Option String
  date : Option String
  description : Option String
  type : Option TxType
deriving DecidableEq, Repr

def applyTxPatch (tr : Transaction) (p : TxPatch) : Transaction :=
  { id := tr.id,
    amount := p.amount.getD tr.amount,
    category := p.category.getD tr.category,
    date := p.date.getD tr.date,
    description := p.description.getD tr.description,
    type := p.type.getD tr.type }

/-- Input for addBudget: a Budget without id and spent. -/
structure BudgetInput where
  category : String
  limit : Int
  period : Period
deriving DecidableEq, Repr

/-- Partial Budget for updateBudget. -/
structure BudgetPatch where
  category : Option String
  limit : Option Int
  spent : Option Int
  period : Option Period
deriving DecidableEq, Repr

def applyBudgetPatch (b : Budget) (p : BudgetPatch) : Budget :=
  { id := b.id,
    category := p.category.getD b.category,
    limit := p.limit.getD b.limit,
    spent := p.spent.getD b.spent,
    period := p.period.getD b.period }

/-- Input for addCategory: a Category without id. -/
structure CatInput where
  name : String
  type : CatType
  color : String
deriving DecidableEq, Repr

def mkCategory (newId : String) (i : CatInput) : Category :=
  { id := newId, name := i.name, type := i.type, color := i.color }

/-- Partial Category for updateCategory. -/
structure CatPatch where
  name : Option String
  type : Option CatType
  color : Option String
deriving DecidableEq, Repr

def applyCatPatch (c : Category) (p : CatPatch) : Category :=
  { id := c.id,
    name := p.name.getD c.name,
    type := p.type.getD c.type,
    color := p.color.getD c.color }

/-- Source lines 494 to 498: filter the ledger to the expense transactions
of the given category (exact string equality) and reduce their amounts
starting from 0. -/
def calculateSpentAmount (transactions : List Transaction) (category : String) : Int :=
  (transactions.filter
      (fun tr => tr.category == category && tr.type == TxType.expense)).foldl
    (fun total tr => total + tr.amount) 0

/-- Source lines 466 to 473: the local state update of
updateBudgetsAfterTransaction, adding the amount to the spent field of
every budget whose category matches. -/
def updateBudgetsLocal (budgets : List Budget) (category : String) (amount : Int) : List Budget :=
  budgets.map
    (fun budget =>
      if budget.category == category then
        { budget with spent := budget.spent + amount }
      else budget)

/-- Source lines 506 to 511: the local state update of recalculateBudgets,
setting every spent field from calculateSpentAmount over the transaction
list visible to the closure. -/
def recalculateBudgetsLocal (budgets : List Budget) (transactions : List Transaction) : List Budget :=
  budgets.map
    (fun budget =>
      { budget with spent := calculateSpentAmount transactions budget.category })

/-- Result of addTransaction: the new local state, and whether the
refreshData fallback was triggered (it is called only in the catch branch
of updateBudgetsAfterTransaction, when the remote budget write fails). -/
structure AddTxResult where
  state : FinState
  refreshTriggered : Bool
deriving DecidableEq, Repr

/-- Source lines 116 to 165 plus 461 to 491. The remote insert is awaited
first; on failure the catch branch only shows a toast, so no local update
happens and no refresh is triggered. On success the new transaction is
prepended, and when its type is expense the budgets are adjusted locally
by updateBudgetsAfterTransaction; the remote budget write inside that
helper is attempted only when some budget matches the category, and its
failure triggers refreshData. -/
def addTransaction (auth : Bool) (insertOk : Bool) (budgetWriteOk : Bool)
    (newId : String) (i : TxInput) (s : FinState) : AddTxResult :=
  if !auth then { state := s, refreshTriggered := false }
  else if !insertOk then { state := s, refreshTriggered := false }
  else
    let newTx := mkTransaction newId i
    let ts := newTx :: s.transactions
    if i.type == TxType.expense then
      let bs := updateBudgetsLocal s.budgets i.category i.amount
      let attempted := s.budgets.any (fun b => b.category == i.category)
      { state := { s with transactions := ts, budgets := bs },
        refreshTriggered := attempted && !budgetWriteOk }
    else
      { state := { s with transactions := ts }, refreshTriggered := false }

/-- Source lines 167 to 205. On remote success the transaction list is
mapped through the patch, then recalculateBudgets runs; the closure it
executes reads the transaction list of the current render, which is still
the pre-mutation list (see the module comment on React semantics). -/
def updateTransaction (auth : Bool) (remoteOk : Bool)
    (id : String) (p : TxPatch) (s : FinState) : FinState :=
  if !auth then s
  else if !remoteOk then s
  else
    let ts := s.transactions.map (fun tr => if tr.id == id then applyTxPatch tr p else tr)
    let bs := recalculateBudgetsLocal s.budgets s.transactions
    { s with transactions := ts, budgets := bs }

/-- Source lines 207 to 237. Same shape as updateTransaction: filter out
the matching id, then recalculateBudgets over the stale (pre-deletion)
transaction list. -/
def deleteTransaction (auth : Bool) (remoteOk : Bool)
    (id : String) (s : FinState) : FinState :=
  if !auth then s
  else if !remoteOk then s
  else
    let ts := s.transactions.filter (fun tr => tr.id != id)
    let bs := recalculateBudgetsLocal s.budgets s.transactions
    { s with transactions := ts, budgets := bs }

/-- Source lines 240 to 285. The initial spent value is computed by
calculateSpentAmount over the current transaction list before the budget
is inserted; the remote insert echoes the stored row, and the new budget
is prepended locally. -/
def addBudget (auth : Bool) (remoteOk : Bool)
    (newId : String) (b : BudgetInput) (s : FinState) : FinState :=
  if !auth then s
  else if !remoteOk then s
  else
    let spent := calculateSpentAmount s.transactions b.category
    let nb : Budget :=
      { id := newId, category := b.category, limit := b.limit,
        spent := spent, period := b.period }
    { s with budgets := nb :: s.budgets }

/-- Source lines 287 to 323: map the matching budget through the patch. -/
def updateBudget (auth : Bool) (remoteOk : Bool)
    (id : String) (p : BudgetPatch) (s : FinState) : FinState :=
  if !auth then s
  else if !remoteOk then s
  else
    { s with budgets := s.budgets.map (fun b => if b.id == id then applyBudgetPatch b p else b) }

/-- Source lines 325 to 352: filter out the matching budget. -/
def deleteBudget (auth : Bool) (remoteOk : Bool)
    (id : String) (s : FinState) : FinState :=
  if !auth then s
  else if !remoteOk then s
  else
    { s with budgets := s.budgets.filter (fun b => b.id != id) }

/-- Source lines 355 to 395: prepend the category echoed by the insert. -/
def addCategory (auth : Bool) (remoteOk : Bool)
    (newId : String) (i : CatInput) (s : FinState) : FinState :=
  if !auth then s
  else if !remoteOk then s
  else
    { s with categories := mkCategory newId i :: s.categories }

/-- Source lines 397 to 430: map the matching category through the patch. -/
def updateCategory (auth : Bool) (remoteOk : Bool)
    (id : String) (p : CatPatch) (s : FinState) : FinState :=
  if !auth then s
  else if !remoteOk then s
  else
    { s with categories := s.categories.map (fun c => if c.id == id then applyCatPatch c p else c) }

/-- Source lines 432 to 459: filter out the matching category; the
transaction and budget collections are not touched. -/
def deleteCategory (auth : Bool) (remoteOk : Bool)
    (id : String) (s : FinState) : FinState :=
  if !auth then s
  else if !remoteOk then s
  else
    { s with categories := s.categories.filter (fun c => c.id != id) }

/-! Helper lemmas about the calculator and about no-op maps and filters. -/

lemma foldl_add_amount (l : List Transaction) (a : Int) :
    l.foldl (fun total tr => total + tr.amount) a = a + (l.map Transaction.amount).sum := by
  induction l generalizing a with
  | nil => simp
  | cons tr t ih => simp [ih, add_assoc]

lemma calculateSpentAmount_eq_sum (l : List Transaction) (c : String) :
    calculateSpentAmount l c
      = ((l.filter (fun tr => tr.category == c && tr.type == TxType.expense)).map
          Transaction.amount).sum := by
  simp [calculateSpentAmount, foldl_add_amount]

lemma filter_decide_eq (l : List Transaction) (c : String) :
    l.filter (fun tr => tr.category == c && tr.type == TxType.expense)
      = l.filter (fun tr => decide (tr.type = TxType.expense ∧ tr.category = c)) := by
  apply List.filter_congr
  intro tr _
  rw [Bool.eq_iff_iff]
  simp only [Bool.and_eq_true, beq_iff_eq, decide_eq_true_eq]
  exact and_comm

lemma calculateSpentAmount_spec (l : List Transaction) (c : String) :
    calculateSpentAmount l c
      = ((l.filter (fun tr => decide (tr.type = TxType.expense ∧ tr.category = c))).map
          Transaction.amount).sum := by
  rw [calculateSpentAmount_eq_sum, filter_decide_eq]

lemma map_ite_id {α : Type} (l : List α) (p : α → Bool) (f : α → α)
    (h : ∀ x ∈ l, p x = false) :
    l.map (fun x => if p x then f x else x) = l := by
  induction l with
  | nil => rfl
  | cons a t ih =>
    have ha := h a (List.mem_cons_self a t)
    simp only [List.map_cons, ha, Bool.false_eq_true, if_false, List.cons.injEq, true_and]
    exact ih (fun x hx => h x (List.mem_cons_of_mem a hx))

lemma filter_true_id {α : Type} (l : List α) (p : α → Bool)
    (h : ∀ x ∈ l, p x = true) :
    l.filter p = l := by
  induction l with
  | nil => rfl
  | cons a t ih =>
    simp only [List.filter_cons, h a (List.mem_cons_self a t), if_true, List.cons.injEq, true_and]
    exact ih (fun x hx => h x (List.mem_cons_of_mem a hx))

/-! Concrete fixtures used by witnesses and counterexamples. -/

def txFood30 : Transaction :=
  { id := "t1", amount := 30, category := "Food", date := "2024-01-01",
    description := "", type := TxType.expense }

def txRent20 : Transaction :=
  { id := "t2", amount := 20, category := "Rent", date := "2024-01-02",
    description := "", type := TxType.expense }

def txSalary : Transaction :=
  { id := "t3", amount := 1000, category := "Salary", date := "2024-01-03",
    description := "", type := TxType.income }

def budFood : Budget :=
  { id := "b1", category := "Food", limit := 200, spent := 50, period := Period.monthly }

def budRent : Budget :=
  { id := "b2", category := "Rent", limit := 500, spent := 100, period := Period.monthly }

def inputFood30 : TxInput :=
  { amount := 30, category := "Food", date := "2024-01-02", description := "",
    type := TxType.expense }

def inputSalary : TxInput :=
  { amount := 1000, category := "Salary", date := "2024-01-03", description := "",
    type := TxType.income }

def noTxPatch : TxPatch :=
  { amount := none, category := none, date := none, description := none, type := none }

def noBudgetPatch : BudgetPatch :=
  { category := none, limit := none, spent := none, period := none }

def stateC1 : FinState :=
  { transactions := [txFood30],
    budgets := [{ id := "b1", category := "Food", limit := 200, spent := 30,
                  period := Period.monthly }],
    categories := [] }

def stateC2 : FinState :=
  { transactions := [], budgets := [budFood, budRent], categories := [] }

def stateC3 : FinState :=
  { transactions := [txFood30], budgets := [budFood], categories := [] }

def mixedLedger : List Transaction := [txFood30, txSalary, txRent20]

/-! Claim theorems. -/

/-- Claim C1. The claim states that after every update or delete of a
transaction, every budget holds spent equal to calculateSpentAmount over
the post-mutation ledger. The code violates this: recalculateBudgets runs
inside the same handler closure and therefore recomputes against the
pre-mutation transaction list. Evaluation at the failing input: one
expense transaction (Food, 30) and one Food budget with spent 30; deleting
the transaction empties the ledger, yet the budget keeps spent 30 while
calculateSpentAmount over the post-deletion ledger is 0. -/
theorem C1_recalculate_uses_stale_ledger :
    (deleteTransaction true true "t1" stateC1).transactions = []
    ∧ (deleteTransaction true true "t1" stateC1).budgets.map Budget.spent = [30]
    ∧ calculateSpentAmount (deleteTransaction true true "t1" stateC1).transactions "Food" = 0
    ∧ ¬ (∀ b ∈ (deleteTransaction true true "t1" stateC1).budgets,
          b.spent
            = calculateSpentAmount (deleteTransaction true true "t1" stateC1).transactions
                b.category) := by
  decide

/-- Claim C2. After a single expense add (authenticated, remote insert
succeeding, any outcome of the remote budget write), the budget list is
exactly the old list with the amount added to the spent field of each
budget whose category equals the new transaction category, and every
budget of a different category unchanged. -/
theorem C2_incremental_add (s : FinState) (newId : String) (i : TxInput) (bOk : Bool)
    (h : i.type = TxType.expense) :
    (addTransaction true true bOk newId i s).state.budgets
      = s.budgets.map (fun b =>
          if b.category = i.category then { b with spent := b.spent + i.amount } else b) := by
  obtain ⟨a, c, d, e, ty⟩ := i
  cases h
  show updateBudgetsLocal s.budgets c a
      = s.budgets.map (fun b => if b.category = c then { b with spent := b.spent + a } else b)
  unfold updateBudgetsLocal
  apply List.map_congr_left
  intro b _
  by_cases hb : b.category = c
  · simp [hb]
  · simp [hb]

/-- Witness for C2 at the spec scenario: Food budget with spent 50, added
expense of 30 in Food; the result has spent 80 and the Rent budget is
unchanged. -/
theorem C2_incremental_add_witness :
    inputFood30.type = TxType.expense
    ∧ (addTransaction true true true "t9" inputFood30 stateC2).state.budgets
        = [{ budFood with spent := 80 }, budRent] := by
  refine ⟨rfl, ?_⟩
  rw [C2_incremental_add stateC2 "t9" inputFood30 true rfl]
  decide

/-- Claim C3, counterexample. When the remote insert fails, the code
throws before any local update: the state is unchanged (so it does not
reflect the optimistic add) and no refresh is triggered, contradicting
the claim that the local state reflects the add and a refresh follows. -/
theorem C3_insert_failure_counterexample :
    (addTransaction true false true "t9" inputFood30 stateC3).state = stateC3
    ∧ mkTransaction "t9" inputFood30
        ∉ (addTransaction true false true "t9" inputFood30 stateC3).state.transactions
    ∧ (addTransaction true false true "t9" inputFood30 stateC3).refreshTriggered = false := by
  decide

/-- Claim C3 as amended: when the remote insert for a new transaction
fails, the call is a local no-op — no optimistic add is applied and no
data refresh is triggered; the local-first adjustment with refresh on
failure applies only to the budget write inside
updateBudgetsAfterTransaction. -/
theorem C3_insert_failure_is_noop (bOk : Bool) (newId : String) (i : TxInput) (s : FinState) :
    addTransaction true false bOk newId i s = { state := s, refreshTriggered := false } :=
  rfl

/-- Claim C4. Adding a budget prepends a budget whose spent field is
calculateSpentAmount over the transaction list before insertion, which by
calculateSpentAmount_spec is the sum of the amounts of the pre-existing
expense transactions of that category. -/
theorem C4_addBudget_initial_spent (newId : String) (b : BudgetInput) (s : FinState) :
    (addBudget true true newId b s).budgets
      = { id := newId, category := b.category, limit := b.limit,
          spent := calculateSpentAmount s.transactions b.category,
          period := b.period } :: s.budgets
    ∧ ((addBudget true true newId b s).budgets.head?.map Budget.spent)
        = some (((s.transactions.filter
              (fun tr => decide (tr.type = TxType.expense ∧ tr.category = b.category))).map
            Transaction.amount).sum) := by
  refine ⟨rfl, ?_⟩
  show some (calculateSpentAmount s.transactions b.category) = _
  rw [calculateSpentAmount_spec]

/-- Claim C5. The calculator equals the sum of the amounts of exactly the
expense transactions of the given category (exact string equality), and
returns 0 when no transaction matches; it is a pure function of its
arguments. -/
theorem C5_computeSpent_sum (l : List Transaction) (c : String) :
    calculateSpentAmount l c
      = ((l.filter (fun tr => decide (tr.type = TxType.expense ∧ tr.category = c))).map
          Transaction.amount).sum
    ∧ ((∀ tr ∈ l, ¬(tr.type = TxType.expense ∧ tr.category = c)) →
        calculateSpentAmount l c = 0) := by
  constructor
  · exact calculateSpentAmount_spec l c
  · intro h
    rw [calculateSpentAmount_spec]
    have : l.filter (fun tr => decide (tr.type = TxType.expense ∧ tr.category = c)) = [] := by
      simp only [List.filter_eq_nil_iff, decide_eq_true_eq]
      exact h
    rw [this]
    rfl

/-- Witness for C5: in a ledger holding a Food expense, a Salary income
and a Rent expense, no transaction matches the lowercase category food
(matching is case sensitive), and the calculator returns 0 there. -/
theorem C5_computeSpent_sum_witness :
    (∀ tr ∈ mixedLedger, ¬(tr.type = TxType.expense ∧ tr.category = "food"))
    ∧ calculateSpentAmount mixedLedger "food" = 0 :=
  ⟨by decide, (C5_computeSpent_sum mixedLedger "food").2 (by decide)⟩

/-- Claim C6. The calculator is order independent: any permutation of the
ledger yields the same result; determinism on equal inputs is immediate
since calculateSpentAmount is a pure function. -/
theorem C6_computeSpent_perm (l l2 : List Transaction) (c : String)
    (h : List.Perm l l2) :
    calculateSpentAmount l c = calculateSpentAmount l2 c := by
  rw [calculateSpentAmount_eq_sum, calculateSpentAmount_eq_sum]
  exact List.Perm.sum_eq (List.Perm.map _ (List.Perm.filter _ h))

/-- Witness for C6 at a concrete two-element swap. -/
theorem C6_computeSpent_perm_witness :
    List.Perm [txFood30, txRent20] [txRent20, txFood30]
    ∧ calculateSpentAmount [txFood30, txRent20] "Food"
        = calculateSpentAmount [txRent20, txFood30] "Food" :=
  ⟨List.Perm.swap txRent20 txFood30 [],
   C6_computeSpent_perm [txFood30, txRent20] [txRent20, txFood30] "Food"
     (List.Perm.swap txRent20 txFood30 [])⟩

/-- Claim C7. When no transaction (respectively budget) carries the given
id, updateTransaction and deleteTransaction leave the transaction
collection unchanged, and updateBudget and deleteBudget leave the budget
collection unchanged; all four are total functions, so no error is
surfaced. -/
theorem C7_missing_id_noop (s : FinState) (id : String) (tp : TxPatch) (bp : BudgetPatch)
    (ht : ∀ tr ∈ s.transactions, tr.id ≠ id)
    (hb : ∀ b ∈ s.budgets, b.id ≠ id) :
    (updateTransaction true true id tp s).transactions = s.transactions
    ∧ (deleteTransaction true true id s).transactions = s.transactions
    ∧ (updateBudget true true id bp s).budgets = s.budgets
    ∧ (deleteBudget true true id s).budgets = s.budgets := by
  refine ⟨?_, ?_, ?_, ?_⟩
  · show (s.transactions.map fun tr => if tr.id == id then applyTxPatch tr tp else tr)
        = s.transactions
    exact map_ite_id _ _ _ (fun x hx => beq_eq_false_iff_ne.mpr (ht x hx))
  · show (s.transactions.filter fun tr => tr.id != id) = s.transactions
    exact filter_true_id _ _ (fun x hx => bne_iff_ne.mpr (ht x hx))
  · show (s.budgets.map fun b => if b.id == id then applyBudgetPatch b bp else b)
        = s.budgets
    exact map_ite_id _ _ _ (fun x hx => beq_eq_false_iff_ne.mpr (hb x hx))
  · show (s.budgets.filter fun b => b.id != id) = s.budgets
    exact filter_true_id _ _ (fun x hx => bne_iff_ne.mpr (hb x hx))

/-- Witness for C7 at a concrete state whose ids are t1 and b1, mutated
with the absent id zzz. -/
theorem C7_missing_id_noop_witness :
    (∀ tr ∈ stateC3.transactions, tr.id ≠ "zzz")
    ∧ (∀ b ∈ stateC3.budgets, b.id ≠ "zzz")
    ∧ ((updateTransaction true true "zzz" noTxPatch stateC3).transactions
          = stateC3.transactions
       ∧ (deleteTransaction true true "zzz" stateC3).transactions = stateC3.transactions
       ∧ (updateBudget true true "zzz" noBudgetPatch stateC3).budgets = stateC3.budgets
       ∧ (deleteBudget true true "zzz" stateC3).budgets = stateC3.budgets) :=
  ⟨by decide, by decide,
   C7_missing_id_noop stateC3 "zzz" noTxPatch noBudgetPatch (by decide) (by decide)⟩

/-- Claim C8. With no authenticated user every mutation entry point
returns the state unchanged, for every outcome of the remote calls (the
result does not depend on the remote outcome arguments, mirroring the
early return before any remote call is attempted), and no refresh is
triggered. -/
theorem C8_unauthenticated_noop (iOk bOk rOk : Bool) (newId id : String)
    (ti : TxInput) (tp : TxPatch) (bi : BudgetInput) (bp : BudgetPatch)
    (ci : CatInput) (cp : CatPatch) (s : FinState) :
    addTransaction false iOk bOk newId ti s = { state := s, refreshTriggered := false }
    ∧ updateTransaction false rOk id tp s = s
    ∧ deleteTransaction false rOk id s = s
    ∧ addBudget false rOk newId bi s = s
    ∧ updateBudget false rOk id bp s = s
    ∧ deleteBudget false rOk id s = s
    ∧ addCategory false rOk newId ci s = s
    ∧ updateCategory false rOk id cp s = s
    ∧ deleteCategory false rOk id s = s :=
  ⟨rfl, rfl, rfl, rfl, rfl, rfl, rfl, rfl, rfl⟩

/-- Claim C9. Deleting a category never changes the transaction or budget
collections, for any authentication and remote outcome. -/
theorem C9_deleteCategory_frame (auth rOk : Bool) (id : String) (s : FinState) :
    (deleteCategory auth rOk id s).transactions = s.transactions
    ∧ (deleteCategory auth rOk id s).budgets = s.budgets := by
  cases auth <;> cases rOk <;> exact ⟨rfl, rfl⟩

/-- Claim C10. Adding an income transaction never changes any budget: the
budget adjustment runs only for expense transactions, so the budget list
is exactly as before and no refresh is triggered, for any authentication
and remote outcomes. -/
theorem C10_income_add_budgets_frame (auth iOk bOk : Bool) (newId : String)
    (i : TxInput) (s : FinState) (h : i.type = TxType.income) :
    (addTransaction auth iOk bOk newId i s).state.budgets = s.budgets
    ∧ (addTransaction auth iOk bOk newId i s).refreshTriggered = false := by
  obtain ⟨a, c, d, e, ty⟩ := i
  cases h
  cases auth <;> cases iOk <;> cases bOk <;> exact ⟨rfl, rfl⟩

/-- Witness for C10: adding the income transaction inputSalary leaves the
two budgets of stateC2 unchanged. -/
theorem C10_income_add_budgets_frame_witness :
    inputSalary.type = TxType.income
    ∧ (addTransaction true true true "t9" inputSalary stateC2).state.budgets
        = stateC2.budgets
    ∧ (addTransaction true true true "t9" inputSalary stateC2).refreshTriggered = false :=
  ⟨rfl, C10_income_add_budgets_frame true true true "t9" inputSalary stateC2 rfl⟩
